import Mathlib

/-!
Verification of the `StereoRendering` sample of the Falcor repository.

The repository consists of a single C++ header,
`src/Samples/Core/StereoRendering/StereoRendering.h`, which declares the
class `StereoRendering : public Renderer` and nothing else.  No `.cpp`
implementation file is present anywhere in the repository, so every member
function of the class is declared but not defined here.

The development below embeds the header at two levels:

1. a syntactic model of the translation unit: the list of member
   declarations of the class, with their access specifiers, C++ types,
   initializers and declaration order transcribed from the source; and

2. a semantic model of the object state: a Lean structure whose default
   field values follow the C++ default member initializers (a smart
   pointer with no initializer, or initialized to `nullptr`, is null when
   the object is default-constructed).
-/

/-- Access specifier of a C++ class member: `pub` for the `public:`
section, `priv` for the `private:` section of the class body. -/
inductive Access
  | pub
  | priv
deriving DecidableEq

/-- The C++ types occurring in the member declarations of the header.
The constructors after `stdString` are standard-library error-reporting
and concurrency types that the header could have used but does not; they
are present so that their absence from the class is expressible. -/
inductive CppType
  | voidT
  | boolT
  | sceneSharedPtr
  | sceneRendererSharedPtr
  | graphicsProgramSharedPtr
  | graphicsVarsSharedPtr
  | graphicsStateSharedPtr
  | samplerSharedPtr
  | guiDropdownList
  | vrFboUniquePtr
  | renderModeT
  | stdString
  | stdErrorCode
  | stdThread
  | stdMutex
  | stdAtomicBool
deriving DecidableEq

/-- The default member initializer written after `=` in a data-member
declaration of the header, or `noInit` when the declaration has none. -/
inductive CppInit
  | noInit
  | nullInit
  | falseInit
  | trueInit
  | monoInit
deriving DecidableEq

/-- A member-function declaration of the class: its name, return type,
parameter types (transcribed as the C++ tokens), whether it is marked
`override`, and whether any source file of this repository defines a body
for it (the repository contains only the header, so no body exists). -/
structure MethodDecl where
  name : String
  ret : CppType
  params : List String
  isOverride : Bool
  hasBodyInRepo : Bool
deriving DecidableEq

/-- A data-member declaration of the class: its name, type, whether it is
declared `static`, whether it is declared `const`, and its default member
initializer. -/
structure FieldDecl where
  name : String
  type : CppType
  isStatic : Bool
  isConst : Bool
  dmi : CppInit
deriving DecidableEq

/-- A member of the class body: a member function, a data member, or a
nested `enum class`, each under an access specifier. -/
inductive ClassMember
  | method (acc : Access) (d : MethodDecl)
  | dataMember (acc : Access) (f : FieldDecl)
  | nestedEnum (acc : Access) (n : String) (ctors : List String)
deriving DecidableEq

/-- Access specifier of a class member. -/
def ClassMember.access : ClassMember → Access
  | .method a _ => a
  | .dataMember a _ => a
  | .nestedEnum a _ _ => a

/-- Declared name of a class member. -/
def ClassMember.mname : ClassMember → String
  | .method _ d => d.name
  | .dataMember _ f => f.name
  | .nestedEnum _ n _ => n

/-- Whether a class member is a member function. -/
def ClassMember.isMethod : ClassMember → Bool
  | .method _ _ => true
  | _ => false

/-- A top-level line kind of the header outside the class body.  The
constructors after `usingNamespaceFalcor` are directives the header could
have contained but does not. -/
inductive HeaderDirective
  | pragmaOnce
  | includeFalcor
  | usingNamespaceFalcor
  | includeThread
  | includeMutex
deriving DecidableEq

/-- A C++ class declaration: name, base class, and members in
declaration order. -/
structure ClassDecl where
  name : String
  base : String
  members : List ClassMember
deriving DecidableEq

/-- A header translation unit: its directives, the classes it declares,
and its number of lines of text. -/
structure HeaderFile where
  directives : List HeaderDirective
  classes : List ClassDecl
  lineCount : Nat
deriving DecidableEq

/-- The members of `class StereoRendering`, transcribed in declaration
order from `StereoRendering.h` lines 36-81.  Lines 36-43 form the
`public:` section; everything from line 45 on is under `private:`.  The
repository holds no `.cpp` file, so `hasBodyInRepo` is `false` for every
member function. -/
def stereoRenderingMembers : List ClassMember :=
  [ .method .pub ⟨"onLoad", .voidT, ["SampleCallbacks*", "RenderContext*"], true, false⟩,
    .method .pub ⟨"onFrameRender", .voidT,
      ["SampleCallbacks*", "RenderContext*", "const Fbo::SharedPtr&"], true, false⟩,
    .method .pub ⟨"onResizeSwapChain", .voidT,
      ["SampleCallbacks*", "uint32_t", "uint32_t"], true, false⟩,
    .method .pub ⟨"onKeyEvent", .boolT,
      ["SampleCallbacks*", "const KeyboardEvent&"], true, false⟩,
    .method .pub ⟨"onMouseEvent", .boolT,
      ["SampleCallbacks*", "const MouseEvent&"], true, false⟩,
    .method .pub ⟨"onGuiRender", .voidT, ["SampleCallbacks*", "Gui*"], true, false⟩,
    .method .pub ⟨"onPrePresent", .voidT, ["RenderContext*"], true, false⟩,
    .method .pub ⟨"onPostPresent", .voidT, ["RenderContext*"], true, false⟩,
    .dataMember .priv ⟨"mpScene", .sceneSharedPtr, false, false, .noInit⟩,
    .dataMember .priv ⟨"mpSceneRenderer", .sceneRendererSharedPtr, false, false, .noInit⟩,
    .dataMember .priv ⟨"mpMonoSPSProgram", .graphicsProgramSharedPtr, false, false, .nullInit⟩,
    .dataMember .priv ⟨"mpMonoSPSVars", .graphicsVarsSharedPtr, false, false, .nullInit⟩,
    .dataMember .priv ⟨"mpStereoProgram", .graphicsProgramSharedPtr, false, false, .nullInit⟩,
    .dataMember .priv ⟨"mpStereoVars", .graphicsVarsSharedPtr, false, false, .nullInit⟩,
    .dataMember .priv ⟨"mpGraphicsState", .graphicsStateSharedPtr, false, false, .nullInit⟩,
    .dataMember .priv ⟨"mpTriLinearSampler", .samplerSharedPtr, false, false, .noInit⟩,
    .method .priv ⟨"loadScene", .voidT, [], false, false⟩,
    .method .priv ⟨"loadScene", .voidT, ["const std::string&"], false, false⟩,
    .nestedEnum .priv "RenderMode" ["Mono", "Stereo", "SinglePassStereo"],
    .dataMember .priv ⟨"mSPSSupported", .boolT, false, false, .falseInit⟩,
    .dataMember .priv ⟨"mRenderMode", .renderModeT, false, false, .monoInit⟩,
    .dataMember .priv ⟨"mSubmitModeList", .guiDropdownList, false, false, .noInit⟩,
    .method .priv ⟨"submitToScreen", .voidT, ["RenderContext*", "Fbo::SharedPtr"], false, false⟩,
    .method .priv ⟨"initVR", .voidT, ["Fbo*"], false, false⟩,
    .method .priv ⟨"blitTexture", .voidT,
      ["RenderContext*", "Fbo*", "Texture::SharedPtr", "uint32_t"], false, false⟩,
    .dataMember .priv ⟨"mpVrFbo", .vrFboUniquePtr, false, false, .noInit⟩,
    .dataMember .priv ⟨"mShowStereoViews", .boolT, false, false, .trueInit⟩,
    .method .priv ⟨"submitStereo", .voidT,
      ["RenderContext*", "Fbo::SharedPtr", "bool"], false, false⟩,
    .method .priv ⟨"setRenderMode", .voidT, [], false, false⟩,
    .dataMember .priv ⟨"skDefaultScene", .stdString, true, true, .noInit⟩ ]

/-- The class declared by the header. -/
def stereoRenderingClass : ClassDecl :=
  ⟨"StereoRendering", "Renderer", stereoRenderingMembers⟩

/-- The header translation unit `StereoRendering.h`: a copyright comment,
`#pragma once`, `#include "Falcor.h"`, `using namespace Falcor;`, and the
class declaration, spanning 82 lines of text. -/
def stereoRenderingHeader : HeaderFile :=
  ⟨[.pragmaOnce, .includeFalcor, .usingNamespaceFalcor], [stereoRenderingClass], 82⟩

/-- The members of the `public:` section of the class. -/
def publicMembers : List ClassMember :=
  stereoRenderingMembers.filter (fun m => m.access = Access.pub)

/-- The member functions of the class, in declaration order. -/
def classMethods : List MethodDecl :=
  stereoRenderingMembers.filterMap (fun m =>
    match m with
    | .method _ d => some d
    | _ => none)

/-- The data members of the class, in declaration order. -/
def classFields : List FieldDecl :=
  stereoRenderingMembers.filterMap (fun m =>
    match m with
    | .dataMember _ f => some f
    | _ => none)

/-- The non-static data members — the mutable per-object state. -/
def instanceFields : List FieldDecl :=
  classFields.filter (fun f => f.isStatic = false)

/-- Whether a C++ type is a handle (smart pointer or value holder) to a
host-engine resource. -/
def CppType.isEngineHandle : CppType → Bool
  | .sceneSharedPtr => true
  | .sceneRendererSharedPtr => true
  | .graphicsProgramSharedPtr => true
  | .graphicsVarsSharedPtr => true
  | .graphicsStateSharedPtr => true
  | .samplerSharedPtr => true
  | .guiDropdownList => true
  | .vrFboUniquePtr => true
  | _ => false

/-- Whether a C++ type is a concurrency construct of the standard
library. -/
def CppType.isConcurrency : CppType → Bool
  | .stdThread => true
  | .stdMutex => true
  | .stdAtomicBool => true
  | _ => false

/-- Whether a header directive pulls in a concurrency header. -/
def HeaderDirective.isConcurrency : HeaderDirective → Bool
  | .includeThread => true
  | .includeMutex => true
  | _ => false

/-- The nested `enum class RenderMode` of the class (header lines
62-67). -/
inductive RenderMode
  | Mono
  | Stereo
  | SinglePassStereo
deriving DecidableEq

/-- Opaque host-engine scene object referenced through `Scene::SharedPtr`. -/
structure Scene where
  id : Nat
deriving DecidableEq

/-- Opaque host-engine scene renderer referenced through
`SceneRenderer::SharedPtr`. -/
structure SceneRenderer where
  id : Nat
deriving DecidableEq

/-- Opaque host-engine shader program referenced through
`GraphicsProgram::SharedPtr`. -/
structure GraphicsProgram where
  id : Nat
deriving DecidableEq

/-- Opaque host-engine shader-variable block referenced through
`GraphicsVars::SharedPtr`. -/
structure GraphicsVars where
  id : Nat
deriving DecidableEq

/-- Opaque host-engine pipeline state referenced through
`GraphicsState::SharedPtr`. -/
structure GraphicsState where
  id : Nat
deriving DecidableEq

/-- Opaque host-engine sampler referenced through `Sampler::SharedPtr`. -/
structure Sampler where
  id : Nat
deriving DecidableEq

/-- Opaque host-engine VR framebuffer referenced through
`VrFbo::UniquePtr`. -/
structure VrFbo where
  id : Nat
deriving DecidableEq

/-- The per-object state of `StereoRendering`, one Lean field per
non-static C++ data member, in declaration order.  A smart pointer is
modelled as an `Option`, with `none` for a null pointer; the default
value of each field follows the C++ default member initializer, and a
smart pointer or `Gui::DropdownList` without an initializer is
value-initialized by C++ to null respectively empty. -/
structure StereoRenderingState where
  mpScene : Option Scene := none
  mpSceneRenderer : Option SceneRenderer := none
  mpMonoSPSProgram : Option GraphicsProgram := none
  mpMonoSPSVars : Option GraphicsVars := none
  mpStereoProgram : Option GraphicsProgram := none
  mpStereoVars : Option GraphicsVars := none
  mpGraphicsState : Option GraphicsState := none
  mpTriLinearSampler : Option Sampler := none
  mSPSSupported : Bool := false
  mRenderMode : RenderMode := RenderMode.Mono
  mSubmitModeList : List (Nat × String) := []
  mpVrFbo : Option VrFbo := none
  mShowStereoViews : Bool := true
deriving DecidableEq

/-- A default-constructed `StereoRendering` object: every field takes its
default member initializer. -/
def defaultStereoRendering : StereoRenderingState := {}

/-- Modelled from the spec: the body of `onGuiRender` / `setRenderMode`
lives in `StereoRendering.cpp`, which is not among the repository's
source files; per the spec, the demo "lets a user toggle between modes
through a GUI dropdown", the dropdown selection determining
`mRenderMode`.  The handler stores the selected mode into the render-mode
field and touches nothing else. -/
def selectModeFromDropdown (s : StereoRenderingState) (selection : RenderMode) :
    StereoRenderingState :=
  { s with mRenderMode := selection }

/-- C1: the render mode of `StereoRendering` takes exactly three values —
`Mono` (monoscopic), `Stereo` (naive two-pass stereo) and
`SinglePassStereo` (SPS) — these three being pairwise distinct and
exhaustive, the nested enum of the class declares exactly these three
enumerators, and the GUI dropdown selection determines `mRenderMode`:
after the dropdown handler runs, `mRenderMode` equals the selected mode,
so every mode is reachable by the user. -/
theorem renderMode_three_values_and_dropdown :
    (∀ m : RenderMode,
      m = RenderMode.Mono ∨ m = RenderMode.Stereo ∨ m = RenderMode.SinglePassStereo)
    ∧ (RenderMode.Mono ≠ RenderMode.Stereo
       ∧ RenderMode.Mono ≠ RenderMode.SinglePassStereo
       ∧ RenderMode.Stereo ≠ RenderMode.SinglePassStereo)
    ∧ ClassMember.nestedEnum Access.priv "RenderMode" ["Mono", "Stereo", "SinglePassStereo"]
        ∈ stereoRenderingMembers
    ∧ ∀ (s : StereoRenderingState) (sel : RenderMode),
        (selectModeFromDropdown s sel).mRenderMode = sel := by
  refine ⟨?_, by decide, by decide, ?_⟩
  · intro m
    cases m
    · exact Or.inl rfl
    · exact Or.inr (Or.inl rfl)
    · exact Or.inr (Or.inr rfl)
  · intro s sel
    rfl

/-- C2: the `public:` section of the class consists exactly of the eight
framework callback member functions `onLoad`, `onFrameRender`,
`onResizeSwapChain`, `onKeyEvent`, `onMouseEvent`, `onGuiRender`,
`onPrePresent`, `onPostPresent`, every one of them a member function
(no public data member or nested type exists), and every other member of
the class is private. -/
theorem public_surface_is_eight_callbacks :
    publicMembers.map ClassMember.mname
      = ["onLoad", "onFrameRender", "onResizeSwapChain", "onKeyEvent",
         "onMouseEvent", "onGuiRender", "onPrePresent", "onPostPresent"]
    ∧ publicMembers.all ClassMember.isMethod = true
    ∧ (stereoRenderingMembers.filter (fun m => m.access = Access.priv)).length
        + publicMembers.length = stereoRenderingMembers.length := by
  decide

/-- C3 counterexample: contrary to the claim, `skDefaultScene` is not part
of what the class makes externally accessible — it is declared in the
`private:` section of the class, and its name does not occur among the
public members. -/
theorem skDefaultScene_not_public :
    ClassMember.dataMember Access.priv ⟨"skDefaultScene", CppType.stdString, true, true, CppInit.noInit⟩
        ∈ stereoRenderingMembers
    ∧ ("skDefaultScene" ∈ publicMembers.map ClassMember.mname) = False := by
  refine ⟨by decide, ?_⟩
  simp only [eq_iff_iff, iff_false]
  decide

/-- C3 amended: the class declares `skDefaultScene`, the default-scene
path name, as a `static const std::string` data member in its `private:`
section: the scene-file path convention is internal to the class, not
externally accessible alongside the callback surface. -/
theorem skDefaultScene_private_static_const :
    (classFields.filter (fun f => f.name = "skDefaultScene")).map
        (fun f => (f.type, f.isStatic, f.isConst))
      = [(CppType.stdString, true, true)]
    ∧ (stereoRenderingMembers.filter (fun m => m.mname = "skDefaultScene")).all
        (fun m => m.access = Access.priv) = true := by
  decide

/-- C4: the repository's single source file is an 82-line header that
declares exactly one class, `StereoRendering`; each of the operations
`onLoad`, `onFrameRender`, `submitStereo`, `submitToScreen`,
`blitTexture`, `initVR`, `loadScene`, `setRenderMode` occurs among the
declared member functions; and every member function of the class is
declared without a definition in this repository. -/
theorem header_declares_without_defining :
    stereoRenderingHeader.lineCount = 82
    ∧ stereoRenderingHeader.classes.map ClassDecl.name = ["StereoRendering"]
    ∧ (["onLoad", "onFrameRender", "submitStereo", "submitToScreen",
        "blitTexture", "initVR", "loadScene", "setRenderMode"].all
         (fun n => classMethods.any (fun d => d.name = n))) = true
    ∧ classMethods.all (fun d => d.hasBodyInRepo = false) = true := by
  decide

/-- C5: the class declares exactly two shader-program members — the
mono/SPS program `mpMonoSPSProgram` and the stereo program
`mpStereoProgram` — each immediately paired with its own shader-variable
member (`mpMonoSPSVars` respectively `mpStereoVars`, the only two
`GraphicsVars` members), and exactly one VR framebuffer member,
`mpVrFbo`, of type `VrFbo::UniquePtr`. -/
theorem two_programs_paired_vars_one_vrfbo :
    (classFields.filter (fun f => f.type = CppType.graphicsProgramSharedPtr)).map FieldDecl.name
      = ["mpMonoSPSProgram", "mpStereoProgram"]
    ∧ (classFields.filter (fun f => f.type = CppType.graphicsVarsSharedPtr)).map FieldDecl.name
      = ["mpMonoSPSVars", "mpStereoVars"]
    ∧ (classFields.filter (fun f =>
          f.type = CppType.graphicsProgramSharedPtr
          || f.type = CppType.graphicsVarsSharedPtr)).map FieldDecl.name
      = ["mpMonoSPSProgram", "mpMonoSPSVars", "mpStereoProgram", "mpStereoVars"]
    ∧ (classFields.filter (fun f => f.type = CppType.vrFboUniquePtr)).map FieldDecl.name
      = ["mpVrFbo"] := by
  decide

/-- C6: every non-static data member of the class is either a handle to a
host-engine resource, the render-mode enum, or a boolean flag — exactly
ten engine-resource handles (scene, scene renderer, two shader programs,
two shader-variable blocks, graphics state, sampler, GUI dropdown list,
VR framebuffer), one `RenderMode` member, and two `bool` members — and no
member function of the class has a body in this repository, so no
operation declared here installs any invariant over that state. -/
theorem state_is_handles_enum_and_flags :
    instanceFields.all (fun f =>
        f.type.isEngineHandle || f.type = CppType.renderModeT || f.type = CppType.boolT) = true
    ∧ (instanceFields.filter (fun f => f.type.isEngineHandle)).length = 10
    ∧ (instanceFields.filter (fun f => f.type = CppType.renderModeT)).map FieldDecl.name
      = ["mRenderMode"]
    ∧ (instanceFields.filter (fun f => f.type = CppType.boolT)).map FieldDecl.name
      = ["mSPSSupported", "mShowStereoViews"]
    ∧ classMethods.all (fun d => d.hasBodyInRepo = false) = true := by
  decide

/-- C7: no operation declared in this file performs any error handling —
every member function returns either `void` or `bool` (no error-code or
status return type), and no member function has a body in this
repository, so no exception handler or failure branch of the class exists
in this file. -/
theorem no_error_handling_declared :
    classMethods.all (fun d =>
        (d.ret = CppType.voidT || d.ret = CppType.boolT)
        && d.ret ≠ CppType.stdErrorCode
        && d.hasBodyInRepo = false) = true := by
  decide

/-- C8: this file introduces no concurrency construct — the header's
directives are exactly `#pragma once`, the `Falcor.h` include and the
`using namespace Falcor;` line, none of which is a concurrency include,
and no data member of the class has a thread, mutex or atomic type, and
no member function returns one — so the class adds no concurrency of its
own to the host engine's single-threaded frame-callback model. -/
theorem no_concurrency_constructs :
    stereoRenderingHeader.directives
      = [HeaderDirective.pragmaOnce, HeaderDirective.includeFalcor,
         HeaderDirective.usingNamespaceFalcor]
    ∧ stereoRenderingHeader.directives.all (fun d => d.isConcurrency = false) = true
    ∧ classFields.all (fun f => f.type.isConcurrency = false) = true
    ∧ classMethods.all (fun d => d.ret.isConcurrency = false) = true := by
  decide

/-- C9: a default-constructed `StereoRendering` object starts in
monoscopic mode (`mRenderMode = RenderMode::Mono`), with single-pass
stereo marked unsupported (`mSPSSupported = false`) and stereo-view
display enabled (`mShowStereoViews = true`), per the default member
initializers of the header. -/
theorem default_mode_flags :
    defaultStereoRendering.mRenderMode = RenderMode.Mono
    ∧ defaultStereoRendering.mSPSSupported = false
    ∧ defaultStereoRendering.mShowStereoViews = true := by
  exact ⟨rfl, rfl, rfl⟩

/-- C10: in a default-constructed `StereoRendering` object the five
pipeline handles `mpMonoSPSProgram`, `mpMonoSPSVars`, `mpStereoProgram`,
`mpStereoVars` and `mpGraphicsState` are all null (their default member
initializers are `nullptr`), and the syntactic model records the
`nullptr` initializer on exactly those five data members. -/
theorem default_pipeline_handles_null :
    defaultStereoRendering.mpMonoSPSProgram = none
    ∧ defaultStereoRendering.mpMonoSPSVars = none
    ∧ defaultStereoRendering.mpStereoProgram = none
    ∧ defaultStereoRendering.mpStereoVars = none
    ∧ defaultStereoRendering.mpGraphicsState = none
    ∧ (classFields.filter (fun f => f.dmi = CppInit.nullInit)).map FieldDecl.name
      = ["mpMonoSPSProgram", "mpMonoSPSVars", "mpStereoProgram",
         "mpStereoVars", "mpGraphicsState"] := by
  exact ⟨rfl, rfl, rfl, rfl, rfl, by decide⟩
